import Mathlib

/-!
Verification of the langchain-agent repository's tool loader, agent builder
and plan-and-execute output wrapper, as a shallow embedding in Lean 4.

The embedding follows the Python sources:
  * src/agent/agent.py       (create_llm, load_agent, PlanAndExecuteWrapper.invoke)
  * src/agent/tool_loader.py (load_tools, the capability registry and wrappers)
  * src/agent/utils.py       (shared conversation memory)
  * src/app/app.py           (the clear-history action)

External collaborators (the language-model client, the LangChain reasoning
loop, network providers) are modelled as opaque parameters; where a claim
depends on the external executor's contract, the definition is marked
"Modelled from the spec".
-/

namespace LangchainAgent

/-! ## Plan-and-execute wrapper (src/agent/agent.py lines 56-70) -/

/-- The fixed fallback sentinel string used by `PlanAndExecuteWrapper.invoke`
(src/agent/agent.py line 68). -/
def fallbackSentinel : String := "未能生成答案，请尝试其他问题或工具。"

/-- One element of the `intermediate_steps` list returned by the underlying
`PlanAndExecute` executor.  The wrapper only inspects whether a step is a
dict containing a `"response"` key (src/agent/agent.py line 63); every other
shape of step is opaque to it. -/
inductive Step where
  | withResponse (response : String)
  | other
deriving DecidableEq

/-- The `"response"` value of a step, when the step is a dict that has one. -/
def Step.response? : Step → Option String
  | .withResponse r => some r
  | .other => none

/-- The result dict returned by `PlanAndExecute.invoke`: `output = none`
models the `"output"` key being absent, `intermediateSteps = none` models the
`"intermediate_steps"` key being absent. -/
structure ExecResult where
  output : Option String
  intermediateSteps : Option (List Step)
deriving DecidableEq

/-- The reverse scan of `intermediate_steps` performed by the wrapper:
`for step in reversed(result["intermediate_steps"]): if isinstance(step, dict)
and "response" in step: result["output"] = step["response"]; break`
(src/agent/agent.py lines 61-65).  Returns the recovered value, if any. -/
def scanResponses (r : ExecResult) : Option String :=
  match r.intermediateSteps with
  | some steps => steps.reverse.findSome? Step.response?
  | none => none

/-- Embedding of `PlanAndExecuteWrapper.invoke` (src/agent/agent.py lines
56-70), as a function of the executor's result dict.  Mirrors:
`if "output" not in result or not result["output"]` (absent key or empty
string), the reverse scan over `intermediate_steps`, and the final
`result.get("output", sentinel)` / `result.get("intermediate_steps", [])`. -/
def planExecInvoke (result : ExecResult) : String × List Step :=
  let out1 : Option String :=
    if result.output = none ∨ result.output = some "" then
      match scanResponses result with
      | some r => some r
      | none => result.output
    else result.output
  (out1.getD fallbackSentinel, result.intermediateSteps.getD [])

/-! ## Model factory (src/agent/agent.py lines 23-34) -/

/-- The configuration of a `ChatOpenAI` client as constructed in
`create_llm`; the client itself is an opaque external collaborator. -/
structure ChatOpenAI where
  model : String
  temperature : Nat
  streaming : Bool
deriving DecidableEq

/-- Python's `str.startswith`, embedded as a character-prefix test. -/
def startswith (s p : String) : Bool := p.data.isPrefixOf s.data

/-- Embedding of `create_llm` (src/agent/agent.py lines 23-34): a `gpt-`
or `Qwen/` prefixed name is passed through, anything else silently becomes a
`gpt-3.5-turbo` client. -/
def create_llm (model_name : String) : ChatOpenAI :=
  if startswith model_name "gpt-" then
    { model := model_name, temperature := 0, streaming := true }
  else if startswith model_name "Qwen/" then
    { model := model_name, temperature := 0, streaming := true }
  else
    { model := "gpt-3.5-turbo", temperature := 0, streaming := true }

/-! ## Capability registry (src/agent/tool_loader.py) -/

/-- The availability environment probed by `load_tools`: which optional
packages import successfully and which credentials are set.  Construction
failures of a provider (caught by the surrounding `try`/`except`) are folded
into the corresponding success flag. -/
structure Env where
  ddgsInstalled : Bool
  ddgFallbackOk : Bool
  owmKeySet : Bool
  pyowmInstalled : Bool
  owmInitOk : Bool
  wolframKeySet : Bool
  wolframInstalled : Bool
  googleKeysSet : Bool
  googleNewInstalled : Bool
  googleFallbackOk : Bool
deriving DecidableEq

/-- A capability descriptor as seen by the agent: its LangChain tool name.
The live callable behind it is modelled separately (see the capability
invoke functions below). -/
structure Tool where
  name : String
deriving DecidableEq

/-- `ArxivQueryRun(api_wrapper=ArxivAPIWrapper())`; the name is the
library-provided default. -/
def arxivTool : Tool := ⟨"arxiv"⟩

/-- `WikipediaQueryRun(api_wrapper=wikipedia_api_wrapper)`; the name is the
library-provided default. -/
def wikipediaTool : Tool := ⟨"wikipedia"⟩

/-- The `Tool(name="python_repl", ...)` wrapper around `python_repl.run`
(src/agent/tool_loader.py lines 134-140). -/
def pythonReplTool : Tool := ⟨"python_repl"⟩

/-- The `Tool(name="Calculator", ...)` wrapper around
`LLMMathChain.from_llm(llm=llm).run` (src/agent/tool_loader.py lines
141-146); note its name differs from its registry key `"llm-math"`. -/
def llmMathTool : Tool := ⟨"Calculator"⟩

/-- The `Tool.from_function(name="Self-ask agent", ...)` wrapper around
`self_ask_agent.invoke` (src/agent/tool_loader.py lines 147-153); its
registry key is `"critical_search"`. -/
def criticalSearchTool : Tool := ⟨"Self-ask agent"⟩

/-- The `Tool(name="ddg-search", ...)` built when the `ddgs` package imports
(src/agent/tool_loader.py lines 72-76). -/
def ddgNewTool : Tool := ⟨"ddg-search"⟩

/-- The fallback `DuckDuckGoSearchRun(...)` built when only the old package
is available (src/agent/tool_loader.py lines 90-95); the name is the
library-provided default. -/
def ddgFallbackTool : Tool := ⟨"duckduckgo_search"⟩

/-- The `Tool(name="OpenWeatherMap", ...)` wrapper
(src/agent/tool_loader.py lines 206-210). -/
def owmTool : Tool := ⟨"OpenWeatherMap"⟩

/-- The `WolframAlphaTool(api_wrapper=...)` subclass instance
(src/agent/tool_loader.py line 255); the name is the library-provided
default. -/
def wolframTool : Tool := ⟨"wolfram_alpha"⟩

/-- The `GoogleSearchRun(...)` instance (src/agent/tool_loader.py lines
270-275); the name is the library-provided default. -/
def googleTool : Tool := ⟨"google_search"⟩

/-- Embedding of the `available_tools` dict built inside `load_tools`
(src/agent/tool_loader.py lines 131-299), as an association list in
insertion order: the five unconditional entries, then `ddg-search` (new
package first, old package as fallback), then the three credential-gated
entries. -/
def availableTools (e : Env) : List (String × Tool) :=
  [("arxiv", arxivTool), ("wikipedia", wikipediaTool),
   ("python_repl", pythonReplTool), ("llm-math", llmMathTool),
   ("critical_search", criticalSearchTool)]
  ++ (if e.ddgsInstalled then [("ddg-search", ddgNewTool)]
      else if e.ddgFallbackOk then [("ddg-search", ddgFallbackTool)] else [])
  ++ (if e.owmKeySet && e.pyowmInstalled && e.owmInitOk then
        [("openweathermap", owmTool)] else [])
  ++ (if e.wolframKeySet && e.wolframInstalled then
        [("wolfram-alpha", wolframTool)] else [])
  ++ (if e.googleKeysSet && (e.googleNewInstalled || e.googleFallbackOk) then
        [("google-search", googleTool)] else [])

/-- `create_self_ask_with_search_agent(llm=llm, ...)` (src/agent/tool_loader.py
lines 120-128) is an external constructor that dereferences `llm`
(`llm.bind(...)`): with `llm=None` it raises.  Modelled as failing exactly
when no language model is supplied. -/
def mkSelfAskAgent (llm : Option ChatOpenAI) : Except String Unit :=
  match llm with
  | none => .error "create_self_ask_with_search_agent: NoneType has no attribute bind"
  | some _ => .ok ()

/-- `LLMMathChain.from_llm(llm=llm)` (src/agent/tool_loader.py lines
144-145) is an external constructor that validates `llm`: with `llm=None`
it raises.  Modelled as failing exactly when no language model is
supplied. -/
def mkLLMMathChain (llm : Option ChatOpenAI) : Except String Unit :=
  match llm with
  | none => .error "LLMMathChain.from_llm: llm must be a BaseLanguageModel, got None"
  | some _ => .ok ()

/-- Embedding of `load_tools` (src/agent/tool_loader.py lines 24-309).
The self-ask sub-agent and the llm-math chain are constructed eagerly,
before the name-resolution loop; the loop then appends
`available_tools[name]` for every requested name found in the dict and
skips the rest. -/
def load_tools (e : Env) (llm : Option ChatOpenAI) (tool_names : List String) :
    Except String (List Tool) := do
  let _ ← mkSelfAskAgent llm
  let _ ← mkLLMMathChain llm
  .ok (tool_names.filterMap fun n => (availableTools e).lookup n)

/-- The warnings printed by the name-resolution loop of `load_tools`
(src/agent/tool_loader.py line 307), one per requested name missing from
the registry. -/
def resolutionWarnings (e : Env) (tool_names : List String) : List String :=
  tool_names.filterMap fun n =>
    if ((availableTools e).lookup n).isSome then none
    else some ("Warning: Tool '" ++ n ++ "' not found in available tools.")

/-! ## Agent builder (src/agent/agent.py lines 36-86) -/

/-- The two shapes of agent `load_agent` can return: the
`PlanAndExecuteWrapper` for the `"plan-and-solve"` strategy, and the react
`AgentExecutor` (with its configured iteration bound, early-stopping method
and parse-error handling) for every other strategy value. -/
inductive Agent where
  | planAndExecute (tools : List Tool)
  | reactExecutor (tools : List Tool) (maxIterations : Nat)
      (earlyStoppingMethod : String) (handleParsingErrors : Bool)
deriving DecidableEq

/-- Embedding of `load_agent` (src/agent/agent.py lines 36-86): build the
llm, resolve the tools, and branch — `"plan-and-solve"` gets the wrapper,
everything else (the annotation notwithstanding, there is no runtime check)
falls through to the react executor with `max_iterations=15`,
`early_stopping_method="generate"`, `handle_parsing_errors=True`. -/
def load_agent (e : Env) (tool_names : List String) (strategy : String)
    (model_name : String) : Except String Agent := do
  let llm := create_llm model_name
  let tools ← load_tools e (some llm) tool_names
  if strategy = "plan-and-solve" then
    .ok (.planAndExecute tools)
  else
    .ok (.reactExecutor tools 15 "generate" true)

/-! ## The react reasoning loop (external executor, spec contract) -/

/-- One decision of the model inside the reasoning loop: either a final
answer or a capability call. -/
inductive ModelAction where
  | finalAnswer (answer : String)
  | toolCall (tool : String) (input : String)

/-- Modelled from the spec: the defined "early-stopping" output the external
`AgentExecutor` produces when the iteration bound is reached without a final
answer (spec §4.2 step 3; the executor itself is not repository code). -/
def earlyStoppingOutput : String :=
  "Agent stopped due to iteration limit or time limit."

/-- Modelled from the spec: the external framework's single-step reasoning
loop (spec §4.2 step 3), with the model's decisions abstracted as an oracle
indexed by iteration number.  Each iteration either yields the final answer
or performs a capability call and continues; when the fuel (the configured
`max_iterations`) is exhausted, the loop stops with the early-stopping
output instead of looping forever or raising. -/
def reactLoop (oracle : Nat → ModelAction) : Nat → Nat → String
  | _, 0 => earlyStoppingOutput
  | step, fuel + 1 =>
      match oracle step with
      | .finalAnswer a => a
      | .toolCall _ _ => reactLoop oracle (step + 1) fuel

/-- Modelled from the spec: one invocation of the react executor, starting
at iteration 0 with the configured iteration bound as fuel. -/
def reactInvoke (oracle : Nat → ModelAction) (maxIterations : Nat) : String :=
  reactLoop oracle 0 maxIterations

/-- The opaque behaviour of the external collaborators during one
invocation: what `PlanAndExecute.invoke` returns, and what the model
decides at each step of the react loop. -/
structure OpaqueBehavior where
  planExecResult : ExecResult
  reactOracle : Nat → ModelAction

/-- Invocation of a built agent: the plan-and-solve wrapper post-processes
the executor's result dict (src/agent/agent.py lines 56-70); the react
executor runs the bounded reasoning loop (external, spec §4.2). -/
def Agent.invoke : Agent → OpaqueBehavior → String × List Step
  | .planAndExecute _, b => planExecInvoke b.planExecResult
  | .reactExecutor _ maxIter _ _, b => (reactInvoke b.reactOracle maxIter, [])

/-! ## Shared conversation memory and the app's clear-history action -/

/-- Modelled from the spec: the shared `ConversationBufferMemory`
(src/agent/utils.py lines 4-12) is an external class; per the spec it is an
ordered sequence of (role, content) turns, and `chat_memory.clear()`
empties it. -/
structure ChatMemory where
  messages : List (String × String)
deriving DecidableEq

/-- `MEMORY.chat_memory.clear()` (src/app/app.py line 65): removes every
stored turn. -/
def ChatMemory.clear (_ : ChatMemory) : ChatMemory := ⟨[]⟩

/-- The app's per-session state: the agent chain built by `load_agent` and
the shared conversation memory (src/app/app.py). -/
structure AppState where
  agentChain : Agent
  memory : ChatMemory

/-- The "Clear message history" button handler (src/app/app.py lines
64-65): clears the shared memory and nothing else; the agent chain is not
rebuilt. -/
def clearMessageHistory (st : AppState) : AppState :=
  { st with memory := st.memory.clear }

/-! ## Capability invoke functions (src/agent/tool_loader.py)

Each capability's live provider call is an opaque parameter returning
`Except String String` (or a structured result), where `.error` models a
raised exception.  The definitions below are the code the repository wraps
around that call — or the identity, where the repository wraps nothing. -/

/-- One result dict from `ddgs.text(...)`: `title`/`body` keys may be
absent (src/agent/tool_loader.py lines 62-63 use `.get` with defaults). -/
structure DDGItem where
  title : Option String
  body : Option String

/-- The per-result formatting of `CustomDuckDuckGoSearch.search`
(src/agent/tool_loader.py lines 61-64). -/
def formatDDGItem (r : DDGItem) : String :=
  (r.title.getD "No title") ++ ": " ++ (r.body.getD "No description")

/-- Embedding of `CustomDuckDuckGoSearch.search` (src/agent/tool_loader.py
lines 45-69): the whole provider call and formatting sit inside a
`try`/`except Exception` that converts any raised exception into the string
`"Search failed: <cause>"`; the function never raises. -/
def ddgSearch (textSearch : String → Except String (List DDGItem))
    (query : String) : Except String String :=
  match textSearch query with
  | .ok results => .ok (String.intercalate "\n" (results.map formatDDGItem))
  | .error e => .ok ("Search failed: " ++ e)

/-- The weather fields extracted by `OpenWeatherMapTool.get_current_weather`
(src/agent/tool_loader.py lines 191-194); numeric values are kept as their
rendered strings, since only their interpolation matters here. -/
structure Weather where
  temp : String
  status : String
  humidity : String
  windSpeed : String

/-- Embedding of `OpenWeatherMapTool.get_current_weather`
(src/agent/tool_loader.py lines 176-200): any exception from the provider
lookup is converted to a descriptive string; the function never raises. -/
def owmGetCurrentWeather (weatherAtPlace : String → Except String Weather)
    (location : String) : Except String String :=
  match weatherAtPlace location with
  | .ok w => .ok ("Current weather in " ++ location ++ ": " ++ w.temp ++
      "°C, " ++ w.status ++ ", Humidity: " ++ w.humidity ++
      "%, Wind Speed: " ++ w.windSpeed ++ " m/s")
  | .error e => .ok ("Could not retrieve weather data for " ++ location ++
      ": " ++ e)

/-- Embedding of `WolframAlphaTool._run` (src/agent/tool_loader.py lines
226-238): delegates to the library's `_run` and converts any exception into
a descriptive string; the function never raises. -/
def wolframAlphaRun (superRun : String → Except String String)
    (query : String) : Except String String :=
  match superRun query with
  | .ok r => .ok r
  | .error e => .ok ("Wolfram Alpha query failed: " ++ e ++
      ". Please try a different tool or rephrase your query.")

/-- The registry's `"wikipedia"` entry is `WikipediaQueryRun(...)` used
directly (src/agent/tool_loader.py line 133): the repository wraps no
exception handling around the provider call. -/
def wikipediaInvoke (run : String → Except String String) :
    String → Except String String := run

/-- The registry's `"arxiv"` entry is `ArxivQueryRun(...)` used directly
(src/agent/tool_loader.py line 132): no repository-level exception
handling. -/
def arxivInvoke (run : String → Except String String) :
    String → Except String String := run

/-- The registry's `"llm-math"` entry binds `LLMMathChain.from_llm(...).run`
directly as the tool's func (src/agent/tool_loader.py line 144): no
repository-level exception handling. -/
def llmMathInvoke (run : String → Except String String) :
    String → Except String String := run

/-- The registry's `"critical_search"` entry binds `self_ask_agent.invoke`
directly as the tool's func (src/agent/tool_loader.py line 148): no
repository-level exception handling. -/
def criticalSearchInvoke (run : String → Except String String) :
    String → Except String String := run

/-- The registry's `"python_repl"` entry binds `python_repl.run` directly
as the tool's func (src/agent/tool_loader.py line 139): no
repository-level exception handling. -/
def pythonReplInvoke (run : String → Except String String) :
    String → Except String String := run

/-- Whether an `Except`-valued call returned normally (did not raise). -/
def returnsOk : Except String String → Bool
  | .ok _ => true
  | .error _ => false

/-- A fully pessimistic availability environment: no optional package, no
credential. -/
def envNone : Env :=
  ⟨false, false, false, false, false, false, false, false, false, false⟩

/-! ## Helper lemmas -/

/-- Unfolding of the output component of `planExecInvoke`. -/
lemma planExecInvoke_fst (r : ExecResult) :
    (planExecInvoke r).1 =
      if r.output = none ∨ r.output = some "" then
        match scanResponses r with
        | some v => v
        | none => r.output.getD fallbackSentinel
      else r.output.getD fallbackSentinel := by
  simp only [planExecInvoke]
  split
  · cases h : scanResponses r <;> simp [h]
  · simp

/-- With a language model supplied, `load_tools` reduces to the
name-resolution loop over the registry. -/
lemma load_tools_some_eq (e : Env) (llm : ChatOpenAI) (names : List String) :
    load_tools e (some llm) names =
      .ok (names.filterMap fun n => (availableTools e).lookup n) := rfl

/-! ## C1 -/

/-- C1 (counterexample): the claim "an AgentSession built by load_agent
returns an invocation result whose output is a non-empty string,
substituting the sentinel when the executor produced no output" is false:
when the plan-and-solve executor returns an `"output"` key holding the
empty string (and no recoverable step), the wrapper returns that empty
string — the sentinel is only substituted when the key is absent. -/
theorem c1_agent_output_can_be_empty :
    load_agent envNone ["wikipedia"] "plan-and-solve" "gpt-3.5-turbo" =
      .ok (Agent.planAndExecute [wikipediaTool]) ∧
    (Agent.planAndExecute [wikipediaTool]).invoke
      ⟨⟨some "", some []⟩, fun _ => ModelAction.finalAnswer "x"⟩ = ("", []) ∧
    fallbackSentinel ≠ "" :=
  ⟨rfl, rfl, by decide⟩

/-- C1 (amended): under plan-and-solve, `invoke` returns the executor's
output unchanged whenever it is a non-empty string; it substitutes the
(non-empty) sentinel when the output key is absent and the reverse scan
over the intermediate steps recovers nothing; and the returned output can
be empty only when the executor itself supplied an empty output value or
the scanned step's response value was empty. -/
theorem c1_planexec_output_amended (r : ExecResult) :
    (∀ s, r.output = some s → s ≠ "" → (planExecInvoke r).1 = s) ∧
    (r.output = none → scanResponses r = none →
      (planExecInvoke r).1 = fallbackSentinel ∧ fallbackSentinel ≠ "") ∧
    ((planExecInvoke r).1 = "" →
      r.output = some "" ∨ scanResponses r = some "") := by
  refine ⟨?_, ?_, ?_⟩
  · intro s hs hne
    rw [planExecInvoke_fst, if_neg]
    · simp [hs]
    · rintro (h | h) <;> rw [hs] at h <;> simp_all
  · intro h0 hscan
    rw [planExecInvoke_fst, if_pos (Or.inl h0), hscan, h0]
    exact ⟨rfl, by decide⟩
  · intro hempty
    rw [planExecInvoke_fst] at hempty
    split at hempty
    · cases hscan : scanResponses r with
      | some v =>
          rw [hscan] at hempty
          have hv : v = "" := hempty
          exact Or.inr (congrArg some hv)
      | none =>
          rw [hscan] at hempty
          have hg : r.output.getD fallbackSentinel = "" := hempty
          cases houtput : r.output with
          | none =>
              rw [houtput] at hg
              exact absurd hg (by decide)
          | some s =>
              rw [houtput, Option.getD_some] at hg
              exact Or.inl (congrArg some hg)
    · rename_i hcond
      push_neg at hcond
      cases houtput : r.output with
      | none => exact absurd houtput hcond.1
      | some s =>
          rw [houtput, Option.getD_some] at hempty
          exact absurd (houtput.trans (congrArg some hempty)) hcond.2

/-- Witness for the amended C1, at concrete executor results. -/
theorem c1_planexec_output_amended_witness :
    (planExecInvoke ⟨some "hello", none⟩).1 = "hello" ∧
    (planExecInvoke ⟨none, some []⟩).1 = fallbackSentinel :=
  ⟨(c1_planexec_output_amended ⟨some "hello", none⟩).1 "hello" rfl (by decide),
   ((c1_planexec_output_amended ⟨none, some []⟩).2.1 rfl rfl).1⟩

/-! ## C5 -/

/-- C5 (counterexample): the claim "the fallback scan returns the first
non-empty textual response found in reverse order, and if every step
yields an empty result the sentinel is returned" is false: with steps
`[{"response": "good"}, {"response": ""}]` and no output key, the scan
takes the later step's empty response, so `invoke` returns the empty
string — neither the earlier non-empty response nor the sentinel. -/
theorem c5_scan_takes_empty_response :
    (planExecInvoke ⟨none,
        some [Step.withResponse "good", Step.withResponse ""]⟩).1 = "" ∧
    ("" : String) ≠ "good" ∧ fallbackSentinel ≠ "" :=
  ⟨rfl, by decide, by decide⟩

/-- C5 (amended): when the executor's output is absent or empty, the scan
takes the value of the last step (the first in reverse order) that is a
dict carrying a `"response"` key, regardless of whether that value is
empty; the sentinel is reached only when no step carries a response key at
all. -/
theorem c5_scan_amended (r : ExecResult) (pre post : List Step) (v : String)
    (hfall : r.output = none ∨ r.output = some "")
    (hsteps : r.intermediateSteps = some (pre ++ Step.withResponse v :: post))
    (hpost : ∀ s ∈ post, s.response? = none) :
    (planExecInvoke r).1 = v := by
  have hscan : scanResponses r = some v := by
    simp only [scanResponses, hsteps, List.reverse_append, List.reverse_cons,
      List.findSome?_append]
    have hnone : post.reverse.findSome? Step.response? = none := by
      rw [List.findSome?_eq_none_iff]
      intro s hs
      exact hpost s (List.mem_reverse.mp hs)
    simp [List.findSome?_append, hnone, Step.response?]
  rw [planExecInvoke_fst, if_pos hfall, hscan]

/-- Witness for the amended C5, at a concrete step list. -/
theorem c5_scan_amended_witness :
    (planExecInvoke ⟨none,
        some [Step.withResponse "ans", Step.other]⟩).1 = "ans" :=
  c5_scan_amended _ [] [Step.other] "ans" (Or.inl rfl) rfl
    (by intro s hs; rw [List.mem_singleton] at hs; subst hs; rfl)

/-! ## Registry lookup lemmas -/

/-- A successful registry lookup yields a pair stored in the list. -/
lemma mem_of_lookup {l : List (String × Tool)} {k : String} {t : Tool}
    (h : l.lookup k = some t) : (k, t) ∈ l := by
  obtain ⟨l₁, l₂, rfl, -⟩ := List.lookup_eq_some_iff.mp h
  simp

/-- Across every availability environment, the registry's stored
descriptors have pairwise distinct tool names. -/
lemma availableTools_names_nodup (e : Env) :
    ((availableTools e).map fun p => p.2.name).Nodup := by
  unfold availableTools
  split_ifs <;> decide

/-- Distinct registry keys hold descriptors with distinct names. -/
lemma lookup_name_inj (e : Env) {k₁ k₂ : String} {t₁ t₂ : Tool}
    (h₁ : (availableTools e).lookup k₁ = some t₁)
    (h₂ : (availableTools e).lookup k₂ = some t₂)
    (hname : t₁.name = t₂.name) : k₁ = k₂ := by
  have hpair := List.inj_on_of_nodup_map (availableTools_names_nodup e)
    (mem_of_lookup h₁) (mem_of_lookup h₂) hname
  exact congrArg Prod.fst hpair

/-- Resolving a duplicate-free request list yields descriptors with
pairwise distinct names. -/
lemma filterMap_lookup_names_nodup (e : Env) :
    ∀ names : List String, names.Nodup →
      ((names.filterMap fun n => (availableTools e).lookup n).map
        Tool.name).Nodup := by
  intro names
  induction names with
  | nil => intro _; simp
  | cons n rest ih =>
      intro hnd
      rw [List.nodup_cons] at hnd
      obtain ⟨hnotin, hrest⟩ := hnd
      cases hl : (availableTools e).lookup n with
      | none =>
          simp only [List.filterMap_cons, hl]
          exact ih hrest
      | some t =>
          simp only [List.filterMap_cons, hl, List.map_cons, List.nodup_cons]
          refine ⟨?_, ih hrest⟩
          intro hmem
          rw [List.mem_map] at hmem
          obtain ⟨t', ht'mem, ht'name⟩ := hmem
          rw [List.mem_filterMap] at ht'mem
          obtain ⟨m, hmmem, hml⟩ := ht'mem
          exact hnotin ((lookup_name_inj e hml hl ht'name) ▸ hmmem)

/-- The `"wikipedia"` key is always present: it is one of the five
unconditional registry entries. -/
lemma lookup_wikipedia (e : Env) :
    (availableTools e).lookup "wikipedia" = some wikipediaTool := rfl

/-- No availability environment registers the key `"nonexistent-tool"`. -/
lemma lookup_nonexistent (e : Env) :
    (availableTools e).lookup "nonexistent-tool" = none := by
  unfold availableTools
  split_ifs <;> rfl

/-- Under every strategy value, `load_agent` reduces to a branch on
`strategy = "plan-and-solve"` over the resolved tool list. -/
lemma load_agent_eq (e : Env) (names : List String)
    (strategy model_name : String) :
    load_agent e names strategy model_name =
      if strategy = "plan-and-solve" then
        .ok (.planAndExecute (names.filterMap fun n =>
          (availableTools e).lookup n))
      else
        .ok (.reactExecutor (names.filterMap fun n =>
          (availableTools e).lookup n) 15 "generate" true) := rfl

/-! ## C2 -/

/-- C2 (confirmed): with a language model supplied, `load_tools` returns
exactly the registry descriptors of the requested names that are present,
in request order, and never fails because of a bad name; each missing name
only contributes a warning.  In particular `["wikipedia",
"nonexistent-tool"]` resolves to just the wikipedia descriptor, with one
warning for the unknown name. -/
theorem c2_load_tools_resolution (e : Env) (llm : ChatOpenAI)
    (names : List String) :
    load_tools e (some llm) names =
      .ok (names.filterMap fun n => (availableTools e).lookup n) ∧
    load_tools e (some llm) ["wikipedia", "nonexistent-tool"] =
      .ok [wikipediaTool] ∧
    resolutionWarnings e ["wikipedia", "nonexistent-tool"] =
      ["Warning: Tool 'nonexistent-tool' not found in available tools."] := by
  refine ⟨load_tools_some_eq e llm names, ?_, ?_⟩
  · rw [load_tools_some_eq]
    simp [List.filterMap_cons, lookup_wikipedia e, lookup_nonexistent e]
  · simp [resolutionWarnings, List.filterMap_cons, lookup_wikipedia e,
      lookup_nonexistent e]

/-! ## C7 -/

/-- C7 (counterexample): the claim "the bound capability sequence contains
no two descriptors with the same name, even when the requested sequence
repeats a name" is false: requesting `["wikipedia", "wikipedia"]` binds
the wikipedia descriptor twice — the resolution loop appends once per
requested occurrence and performs no deduplication. -/
theorem c7_duplicate_names_cex :
    load_tools envNone (some (create_llm "gpt-4")) ["wikipedia", "wikipedia"]
      = .ok [wikipediaTool, wikipediaTool] ∧
    ¬ (([wikipediaTool, wikipediaTool]).map Tool.name).Nodup :=
  ⟨rfl, by decide⟩

/-- C7 (amended): the resolution loop binds one descriptor per requested
occurrence (no deduplication), so the bound sequence is free of duplicate
names exactly when it comes from a duplicate-free request: whenever the
requested names are pairwise distinct, the bound descriptors' names are
pairwise distinct. -/
theorem c7_nodup_amended (e : Env) (llm : ChatOpenAI) (names : List String)
    (ts : List Tool) (h : load_tools e (some llm) names = .ok ts)
    (hnd : names.Nodup) : (ts.map Tool.name).Nodup := by
  rw [load_tools_some_eq] at h
  injection h with h2
  exact h2 ▸ filterMap_lookup_names_nodup e names hnd

/-- Witness for the amended C7, at a concrete duplicate-free request. -/
theorem c7_nodup_amended_witness :
    (([wikipediaTool, arxivTool]).map Tool.name).Nodup :=
  c7_nodup_amended envNone (create_llm "gpt-4") ["wikipedia", "arxiv"]
    [wikipediaTool, arxivTool] rfl (by decide)

/-! ## C3 -/

/-- C3 (counterexample): the claim "load_agent throws if and only if the
strategy value is unknown (outside {zero-shot-react, plan-and-solve}) or
the Model Factory fails" is false: an unknown strategy value does not
raise — `load_agent` has no runtime strategy check and silently treats any
value other than `"plan-and-solve"` as the zero-shot-react branch. -/
theorem c3_unknown_strategy_no_raise :
    load_agent envNone [] "totally-unknown-strategy" "gpt-4" =
      .ok (Agent.reactExecutor [] 15 "generate" true) ∧
    "totally-unknown-strategy" ≠ "zero-shot-react" ∧
    "totally-unknown-strategy" ≠ "plan-and-solve" :=
  ⟨rfl, by decide, by decide⟩

/-- C3 (amended): `load_agent` never raises for missing optional
capabilities nor for any strategy value: it always returns an agent,
building the plan-and-solve wrapper for `"plan-and-solve"` and the
zero-shot-react executor for every other value, unknown values included;
only external collaborator failures (model client, framework calls) could
make the build fail. -/
theorem c3_load_agent_total_amended (e : Env) (names : List String)
    (strategy model_name : String) :
    (∃ a, load_agent e names strategy model_name = .ok a) ∧
    (strategy ≠ "plan-and-solve" →
      load_agent e names strategy model_name =
        .ok (.reactExecutor (names.filterMap fun n =>
          (availableTools e).lookup n) 15 "generate" true)) ∧
    (strategy = "plan-and-solve" →
      load_agent e names strategy model_name =
        .ok (.planAndExecute (names.filterMap fun n =>
          (availableTools e).lookup n))) := by
  refine ⟨?_, ?_, ?_⟩
  · by_cases hs : strategy = "plan-and-solve"
    · exact ⟨_, (load_agent_eq e names strategy model_name).trans (if_pos hs)⟩
    · exact ⟨_, (load_agent_eq e names strategy model_name).trans (if_neg hs)⟩
  · intro hs
    exact (load_agent_eq e names strategy model_name).trans (if_neg hs)
  · intro hs
    exact (load_agent_eq e names strategy model_name).trans (if_pos hs)

/-- Witness for the amended C3, at concrete build requests. -/
theorem c3_load_agent_total_amended_witness :
    load_agent envNone [] "zero-shot-react" "gpt-4" =
      .ok (Agent.reactExecutor [] 15 "generate" true) ∧
    load_agent envNone [] "plan-and-solve" "gpt-4" =
      .ok (Agent.planAndExecute []) :=
  ⟨(c3_load_agent_total_amended envNone [] "zero-shot-react" "gpt-4").2.1
      (by decide),
   (c3_load_agent_total_amended envNone [] "plan-and-solve" "gpt-4").2.2 rfl⟩

/-! ## C6 -/

/-- If the model oracle never yields a final answer, the bounded loop runs
out of fuel and stops with the early-stopping output. -/
lemma reactLoop_no_final (oracle : Nat → ModelAction)
    (h : ∀ k a, oracle k ≠ ModelAction.finalAnswer a) :
    ∀ (fuel step : Nat), reactLoop oracle step fuel = earlyStoppingOutput := by
  intro fuel
  induction fuel with
  | zero => intro step; rfl
  | succ n ih =>
      intro step
      unfold reactLoop
      cases hc : oracle step with
      | finalAnswer a => exact absurd hc (h step a)
      | toolCall t i => exact ih (step + 1)

/-- C6 (confirmed): under any strategy other than `"plan-and-solve"`
(so in particular zero-shot-react), `load_agent` configures the react
executor with an iteration bound of exactly 15, and the bounded reasoning
loop, when the model never produces a final answer, terminates with the
defined early-stopping output instead of looping forever or raising. -/
theorem c6_react_bounded (e : Env) (names : List String)
    (strategy model_name : String) (a : Agent)
    (hbuild : load_agent e names strategy model_name = .ok a)
    (hstrat : strategy ≠ "plan-and-solve") :
    (∃ tools, a = Agent.reactExecutor tools 15 "generate" true) ∧
    (∀ oracle : Nat → ModelAction,
      (∀ k ans, oracle k ≠ ModelAction.finalAnswer ans) →
      reactInvoke oracle 15 = earlyStoppingOutput) := by
  rw [load_agent_eq, if_neg hstrat] at hbuild
  injection hbuild with h2
  exact ⟨⟨_, h2.symm⟩, fun oracle h => reactLoop_no_final oracle h 15 0⟩

/-- Witness for C6: a concrete build plus an oracle that always calls a
tool and never answers. -/
theorem c6_react_bounded_witness :
    reactInvoke (fun _ => ModelAction.toolCall "wikipedia" "q") 15 =
      earlyStoppingOutput :=
  (c6_react_bounded envNone [] "zero-shot-react" "gpt-4"
      (Agent.reactExecutor [] 15 "generate" true) rfl (by decide)).2
    (fun _ => ModelAction.toolCall "wikipedia" "q")
    (fun _ _ h => ModelAction.noConfusion h)

/-! ## C4 -/

/-- C4 (counterexample): the claim "every capability's invoke in the
registry catches internal exceptions and converts them to a string of the
form `<capability> failed: <cause>`" is false: the registry's wikipedia
entry is the provider's query runner bound directly, so a provider
exception propagates uncaught; and the error strings of the wrappers that
do catch use their own formats (e.g. `"Search failed: ..."`), not
`"<capability> failed: ..."`. -/
theorem c4_raw_capability_propagates :
    returnsOk (wikipediaInvoke (fun _ => .error "ConnectionError: timed out")
      "Alan Turing") = false ∧
    ddgSearch (fun _ => .error "timeout") "query" =
      .ok ("Search failed: " ++ "timeout") ∧
    ("Search failed: timeout" : String) ≠ "ddg-search failed: timeout" :=
  ⟨rfl, rfl, by decide⟩

/-- C4 (amended): exactly the capability wrappers the repository defines —
the DuckDuckGo search, the OpenWeatherMap lookup and the Wolfram Alpha
runner — catch every internal provider exception and return a descriptive
string instead of raising; they are total for every provider behaviour and
every input. -/
theorem c4_wrapped_capabilities_total
    (ts : String → Except String (List DDGItem))
    (w : String → Except String Weather)
    (sup : String → Except String String) (q q2 loc : String) :
    returnsOk (ddgSearch ts q) = true ∧
    returnsOk (owmGetCurrentWeather w loc) = true ∧
    returnsOk (wolframAlphaRun sup q2) = true := by
  refine ⟨?_, ?_, ?_⟩
  · cases h : ts q <;> simp [ddgSearch, returnsOk, h]
  · cases h : w loc <;> simp [owmGetCurrentWeather, returnsOk, h]
  · cases h : sup q2 <;> simp [wolframAlphaRun, returnsOk, h]

/-! ## C8 -/

/-- C8 (confirmed): clearing the shared conversation memory empties its
stored turns but leaves the session's agent chain identical, so a
subsequent invocation on the same session behaves exactly as before,
without rebuilding the agent. -/
theorem c8_clear_history_frame (st : AppState) (b : OpaqueBehavior) :
    (clearMessageHistory st).memory.messages = [] ∧
    (clearMessageHistory st).agentChain = st.agentChain ∧
    (clearMessageHistory st).agentChain.invoke b = st.agentChain.invoke b :=
  ⟨rfl, rfl, rfl⟩

/-! ## C9 -/

/-- C9 (confirmed): `create_llm` is total over model-name strings and
routes exactly as claimed: a `gpt-`-prefixed or `Qwen/`-prefixed name is
passed through to the client configuration as given, and every other name
silently becomes a `gpt-3.5-turbo` client — no unknown-model error is ever
reported. -/
theorem c9_create_llm_routing (model_name : String) :
    (startswith model_name "gpt-" = true →
      create_llm model_name =
        { model := model_name, temperature := 0, streaming := true }) ∧
    (startswith model_name "gpt-" = false →
      startswith model_name "Qwen/" = true →
      create_llm model_name =
        { model := model_name, temperature := 0, streaming := true }) ∧
    (startswith model_name "gpt-" = false →
      startswith model_name "Qwen/" = false →
      create_llm model_name =
        { model := "gpt-3.5-turbo", temperature := 0, streaming := true }) := by
  refine ⟨?_, ?_, ?_⟩
  · intro h
    simp [create_llm, h]
  · intro h1 h2
    simp [create_llm, h1, h2]
  · intro h1 h2
    simp [create_llm, h1, h2]

/-- Witness for C9, at one name of each routing class. -/
theorem c9_create_llm_routing_witness :
    create_llm "Qwen/Qwen3-8B" =
      { model := "Qwen/Qwen3-8B", temperature := 0, streaming := true } ∧
    create_llm "llama-3-8b" =
      { model := "gpt-3.5-turbo", temperature := 0, streaming := true } ∧
    create_llm "gpt-4" =
      { model := "gpt-4", temperature := 0, streaming := true } :=
  ⟨(c9_create_llm_routing "Qwen/Qwen3-8B").2.1 (by decide) (by decide),
   (c9_create_llm_routing "llama-3-8b").2.2 (by decide) (by decide),
   (c9_create_llm_routing "gpt-4").1 (by decide)⟩

/-! ## C10 -/

/-- C10 (confirmed): the self-ask sub-agent and the llm-math chain are
constructed eagerly on every `load_tools` call, before the requested names
are even consulted, so calling `load_tools` with no language model (its
default) fails during registry construction for every requested name
list — including lists that need no language model at all. -/
theorem c10_load_tools_llm_none_raises (e : Env) (names : List String) :
    load_tools e none names =
      .error "create_self_ask_with_search_agent: NoneType has no attribute bind" :=
  rfl

end LangchainAgent
